import Mathlib

/-!
Shallow embedding of the SanchaarBot.AI travel-assistant backend
(alert aggregation, adapters, itinerary handling, document classifier),
together with proofs settling the specification claims.

Conventions used throughout the embedding:
* machine timestamps are integers counting seconds (UTC); `datetime`
  differences in the source become integer subtraction and Python
  `timedelta.days` becomes `Int.fdiv _ 86400` (floor division, as in Python);
* monetary-free numeric scores use `ℚ`, which is exact for the literal
  constants (0.5, 0.3, 0.4, 0.2, 0.1, 1.0) the source adds and clamps;
* a Python value that may be absent from a dict is an `Option`;
  Python string truthiness (`if not s`) is `optFalsy`;
* `random.random() < p` draws are injected as explicit boolean oracles,
  indexed by the loop position that consumes them;
* fallible code paths return `Option`; the source's blanket
  `try/except` wrappers around pure dict manipulation have no effect in the
  embedding because the embedded operations are total.
-/

/-- Lower-case a string character by character (the embedding of Python
`str.lower` restricted to the ASCII keywords the source compares against). -/
def lowerStr (s : String) : String := ⟨s.data.map Char.toLower⟩

/-- Python `needle in hay` on strings: contiguous substring test. -/
def strContains (hay needle : String) : Bool :=
  decide (needle.data <:+: hay.data)

/-- Python `any(k in hay for k in needles)`. -/
def containsAny (hay : String) (needles : List String) : Bool :=
  needles.any (fun n => strContains hay n)

/-- Python truthiness of an optional string: `None` and `""` are falsy. -/
def optFalsy (s : Option String) : Bool :=
  match s with
  | none => true
  | some t => t.isEmpty

/-- Python string slicing `s[:n]` (by code point). -/
def takeStr (n : Nat) (s : String) : String := ⟨s.data.take n⟩

/-! ### Stable descending sort

Python's `list.sort(key=..., reverse=True)` is a stable sort; with
`reverse=True` elements comparing equal still keep their original relative
order.  We embed it as an insertion sort that inserts each element before
the first element whose key is not larger, which is stable for the
descending order. -/

/-- Insert `a` into `l`, keeping `l`'s order and placing `a` before the first
element whose key is `≤ key a`. -/
def insertDescBy {α β : Type} [LinearOrder β] (key : α → β) (a : α) :
    List α → List α
  | [] => [a]
  | b :: l => if key a < key b then b :: insertDescBy key a l else a :: b :: l

/-- Stable sort, descending by `key` (the embedding of
`list.sort(key=..., reverse=True)`). -/
def sortDescBy {α β : Type} [LinearOrder β] (key : α → β) :
    List α → List α
  | [] => []
  | a :: l => insertDescBy key a (sortDescBy key l)

theorem mem_insertDescBy {α β : Type} [LinearOrder β] (key : α → β)
    (a x : α) (l : List α) :
    x ∈ insertDescBy key a l ↔ x = a ∨ x ∈ l := by
  induction l with
  | nil => simp [insertDescBy]
  | cons b l ih =>
    by_cases h : key a < key b
    · simp only [insertDescBy, if_pos h, List.mem_cons, ih]
      tauto
    · simp only [insertDescBy, if_neg h, List.mem_cons]

theorem pairwise_insertDescBy {α β : Type} [LinearOrder β] (key : α → β)
    (a : α) (l : List α)
    (h : l.Pairwise (fun x y => key y ≤ key x)) :
    (insertDescBy key a l).Pairwise (fun x y => key y ≤ key x) := by
  induction l with
  | nil => simp [insertDescBy]
  | cons b l ih =>
    rcases List.pairwise_cons.mp h with ⟨hb, hl⟩
    by_cases hab : key a < key b
    · rw [insertDescBy, if_pos hab]
      refine List.pairwise_cons.mpr ⟨?_, ih hl⟩
      intro x hx
      rcases (mem_insertDescBy key a x l).mp hx with rfl | hxl
      · exact le_of_lt hab
      · exact hb x hxl
    · rw [insertDescBy, if_neg hab]
      refine List.pairwise_cons.mpr ⟨?_, h⟩
      intro x hx
      rcases List.mem_cons.mp hx with rfl | hxl
      · exact le_of_not_lt hab
      · exact le_trans (hb x hxl) (le_of_not_lt hab)

theorem pairwise_sortDescBy {α β : Type} [LinearOrder β] (key : α → β)
    (l : List α) :
    (sortDescBy key l).Pairwise (fun x y => key y ≤ key x) := by
  induction l with
  | nil => simp [sortDescBy]
  | cons a l ih => exact pairwise_insertDescBy key a (sortDescBy key l) ih

theorem filter_insertDescBy {α β : Type} [LinearOrder β] (key : α → β)
    (v : β) (a : α) (l : List α) :
    (insertDescBy key a l).filter (fun x => decide (key x = v)) =
      (a :: l).filter (fun x => decide (key x = v)) := by
  induction l with
  | nil => rfl
  | cons b l ih =>
    by_cases hab : key a < key b
    · rw [insertDescBy, if_pos hab]
      by_cases hb : key b = v
      · have ha : ¬ key a = v := by
          intro ha; rw [ha, hb] at hab; exact lt_irrefl v hab
        simp [List.filter_cons, ha, hb, ih]
      · by_cases ha : key a = v <;> simp [List.filter_cons, ha, hb, ih]
    · rw [insertDescBy, if_neg hab]

theorem filter_sortDescBy {α β : Type} [LinearOrder β] (key : α → β)
    (v : β) (l : List α) :
    (sortDescBy key l).filter (fun x => decide (key x = v)) =
      l.filter (fun x => decide (key x = v)) := by
  induction l with
  | nil => rfl
  | cons a l ih =>
    rw [sortDescBy, filter_insertDescBy]
    by_cases ha : key a = v <;> simp [List.filter_cons, ha, ih]

/-! ### Core data model (alerts_handler.py) -/

/-- A date-bearing dict entry as the source reads it: the key can be absent
(or empty, which Python treats the same under `if not ...`), present but not
ISO-parseable (`datetime.fromisoformat` raises), or parseable to a timestamp
(seconds, UTC). -/
inductive DateField where
  | missing
  | unparseable
  | parsed (t : Int)
deriving Repr, DecidableEq

/-- An alert record as built by the four evaluators in `alerts_handler.py`.
Keys that only some alert types set are `Option`s defaulting to `none`. -/
structure Alert where
  type : String
  priority : Int
  title : String
  message : String
  actionRequired : Bool
  bookingId : Option String := none
  location : Option String := none
  country : Option String := none
  date : Option String := none
  source : Option String := none
  url : Option String := none
  document : Option String := none
  createdAt : Int := 0
deriving Repr, DecidableEq

/-- A user-authored custom alert (`create_custom_alert`). -/
structure CustomAlert where
  type : String := "custom"
  priority : Int
  title : String
  message : String
  triggerDate : Option String := none
  actionRequired : Bool
  createdAt : Int
  userCreated : Bool := true
deriving Repr, DecidableEq

/-! ### Flight-timing evaluator (`check_flight_alerts`) -/

/-- The outcome of the departure-date handling in `check_flight_alerts`:
`datetime.fromisoformat(departure_date.replace('Z', '+00:00'))` after the
falsiness check.  A missing or empty value is skipped before parsing; a
non-ISO string raises inside the inner `try` and is skipped; a string with
no UTC offset parses to a timezone-naive datetime and flows on into the
window checks; a string carrying `Z` or an explicit offset (the very format
the `replace` anticipates) parses timezone-AWARE, and the following
`dept_datetime - datetime.utcnow()` — aware minus naive — raises
`TypeError`, which only the function-level `except` catches.  `t` is the
instant in seconds (UTC) in both parsed cases. -/
inductive DepartureField where
  | missing
  | unparseable
  | parsedNaive (t : Int)
  | parsedAware (t : Int)
deriving Repr, DecidableEq

/-- The `details` dict of a flight booking, restricted to the keys
`check_flight_alerts` reads. -/
structure FlightDetails where
  departureDate : DepartureField := .missing
  flightNumber : Option String := none
deriving Repr, DecidableEq

/-- A booking record, restricted to the keys `check_flight_alerts` reads
(non-flight `details` shapes are never accessed by this evaluator). -/
structure Booking where
  type : Option String := none
  status : Option String := none
  bookingId : Option String := none
  details : FlightDetails := {}
deriving Repr, DecidableEq

/-- The random draws `check_flight_alerts` consumes, injected as oracles
indexed by the booking position: `roll i` is `random.random() < 0.1` for the
booking at index `i`, and `gate i` selects among the four hard-coded gates. -/
structure FlightEnv where
  roll : Nat → Bool
  gate : Nat → Fin 4

/-- The hard-coded gate list `['A12', 'B23', 'C34', 'D45']`. -/
def gateNames : Fin 4 → String
  | 0 => "A12"
  | 1 => "B23"
  | 2 => "C34"
  | 3 => "D45"

/-- One decimal place of hours, as Python renders
`f"{time_diff.total_seconds() / 3600:.1f}"`.  The tenths value is the
rounded number of tenths of an hour in `diff` seconds; the claims only
evaluate it at exact multiples of 0.1 h, where every rounding mode agrees
with the float format. -/
def fmtHoursTenths (diff : Int) : String :=
  let t := Int.fdiv (10 * diff + 1800) 3600
  toString (Int.fdiv t 10) ++ "." ++ toString (Int.fdiv t 10 * 10 - t |>.natAbs)

/-- Whether the loop body raises for this booking: a confirmed flight whose
departure string parsed timezone-aware reaches the naive-minus-aware
subtraction, whose `TypeError` escapes to the function-level `except` —
aborting the whole loop, not just this booking. -/
def flight_booking_raises (b : Booking) : Bool :=
  (b.type.getD "") == "flight" && (b.status.getD "") == "confirmed" &&
    (match b.details.departureDate with
     | .parsedAware _ => true
     | _ => false)

/-- Alerts contributed by one non-raising booking at index `i` (the body of
the `for` loop in `check_flight_alerts`): the check-in / departure reminders
are an `if`/`elif` pair, the gate-change check is an independent `if`
guarded by the probabilistic draw.  The `parsedAware` arm is unreachable
from `check_flight_alerts`, which handles the raising case first. -/
def flight_alerts_for (env : FlightEnv) (now : Int) (i : Nat) (b : Booking) :
    List Alert :=
  if (b.type.getD "") = "flight" ∧ (b.status.getD "") = "confirmed" then
    match b.details.departureDate with
    | .missing => []
    | .unparseable => []
    | .parsedAware _ => []
    | .parsedNaive dept =>
      let diff := dept - now
      let fn := b.details.flightNumber.getD "N/A"
      let timed : List Alert :=
        if 22 * 3600 ≤ diff ∧ diff ≤ 24 * 3600 then
          [{ type := "flight_checkin_reminder", priority := 3,
             title := "Flight Check-in Available",
             message := "Check-in is now available for your flight " ++ fn,
             bookingId := b.bookingId, actionRequired := true,
             createdAt := now }]
        else if 2 * 3600 ≤ diff ∧ diff ≤ 3 * 3600 then
          [{ type := "departure_reminder", priority := 4,
             title := "Upcoming Flight Departure",
             message := "Your flight " ++ fn ++ " departs in approximately "
               ++ fmtHoursTenths diff ++ " hours",
             bookingId := b.bookingId, actionRequired := false,
             createdAt := now }]
        else []
      let gate : List Alert :=
        if diff ≤ 6 * 3600 ∧ 0 ≤ diff ∧ env.roll i then
          [{ type := "gate_change", priority := 5,
             title := "Gate Change Alert",
             message := "Gate change for flight " ++ fn ++ ". New gate: "
               ++ gateNames (env.gate i),
             bookingId := b.bookingId, actionRequired := true,
             createdAt := now }]
        else []
      timed ++ gate
  else []

def check_flight_alerts_aux (env : FlightEnv) (now : Int) :
    Nat → List Booking → List Alert
  | _, [] => []
  | i, b :: bs =>
      if flight_booking_raises b then []
      else flight_alerts_for env now i b
        ++ check_flight_alerts_aux env now (i + 1) bs

/-- Embedding of `check_flight_alerts` (alerts_handler.py lines 68-136).
The whole loop runs inside one `try`, so the first booking whose aware
departure makes the subtraction raise ends the function with the alerts
accumulated so far: that booking and every later booking contribute
nothing. -/
def check_flight_alerts (env : FlightEnv) (now : Int)
    (bookings : List Booking) : List Alert :=
  check_flight_alerts_aux env now 0 bookings

/-! ### Weather-severity evaluator (`check_weather_alerts`) -/

/-- One forecast day as the evaluator reads it (`date`; `conditions` dict
collapsed to its `description` key, the only one the evaluator uses). -/
structure WForecastDay where
  date : Option String := none
  description : Option String := none
deriving Repr, DecidableEq

/-- The forecast payload the evaluator reads from the weather adapter
(`weather_data.get('forecast', [])`). -/
structure WForecast where
  forecast : List WForecastDay := []
deriving Repr, DecidableEq

/-- An itinerary destination dict, restricted to the keys the weather and
news evaluators read. -/
structure Destination where
  location : Option String := none
  country : Option String := none
  arrivalDate : Option String := none
deriving Repr, DecidableEq

/-- The `current_itinerary` dict, restricted to its `destinations` key. -/
structure TripItinerary where
  destinations : List Destination := []
deriving Repr, DecidableEq

def severeWeatherKeywords : List String := ["storm", "hurricane", "blizzard", "flood"]

def moderateWeatherKeywords : List String := ["heavy rain", "heavy snow", "fog"]

/-- Python None interpolated into an f-string renders as `"None"`. -/
def optShow (s : Option String) : String := s.getD "None"

/-- Alerts contributed by one forecast day: the severe check and the
advisory check are an `if`/`elif` pair, so a day emits at most one alert and
the severe tier is tested first. -/
def day_weather_alerts (now : Int) (loc : String) (d : WForecastDay) :
    List Alert :=
  let desc := lowerStr (d.description.getD "")
  if containsAny desc severeWeatherKeywords then
    [{ type := "severe_weather", priority := 4,
       title := "Severe Weather Alert - " ++ loc,
       message := "Severe weather expected in " ++ loc ++ " on "
         ++ optShow d.date ++ ": " ++ (d.description.getD "N/A"),
       location := some loc, date := d.date, actionRequired := true,
       createdAt := now }]
  else if containsAny desc moderateWeatherKeywords then
    [{ type := "weather_advisory", priority := 2,
       title := "Weather Advisory - " ++ loc,
       message := "Weather conditions may affect travel in " ++ loc ++ " on "
         ++ optShow d.date ++ ": " ++ (d.description.getD "N/A"),
       location := some loc, date := d.date, actionRequired := false,
       createdAt := now }]
  else []

def joinMap {α β : Type} (f : α → List β) : List α → List β
  | [] => []
  | a :: as => f a ++ joinMap f as

/-- Alerts contributed by one destination: skipped when the location or the
arrival date is falsy, or when the forecast fetch yields nothing. -/
def dest_weather_alerts (wenv : String → Option WForecast) (now : Int)
    (dst : Destination) : List Alert :=
  if optFalsy dst.location ∨ optFalsy dst.arrivalDate then []
  else
    match wenv (dst.location.getD "") with
    | none => []
    | some fc =>
        joinMap (day_weather_alerts now (dst.location.getD "")) fc.forecast

/-- Embedding of `check_weather_alerts` (alerts_handler.py lines 138-195); `wenv` stands
for the result of `weather_api.get_forecast`. -/
def check_weather_alerts (wenv : String → Option WForecast) (now : Int)
    (itin : Option TripItinerary) : List Alert :=
  joinMap (dest_weather_alerts wenv now) (itin.getD {}).destinations

/-! ### News-relevance evaluator (`check_news_alerts`) -/

/-- An article dict as the evaluator reads it from the news payload. -/
structure NArticle where
  title : Option String := none
  description : Option String := none
  source : Option String := none
  url : Option String := none
deriving Repr, DecidableEq

/-- The news payload the evaluator reads (`news_data.get('articles', [])`). -/
structure NNewsData where
  articles : List NArticle := []
deriving Repr, DecidableEq

def travelNewsKeywords : List String :=
  ["travel advisory", "border closure", "flight cancellation",
   "embassy", "security alert", "strike", "protest",
   "visa requirement", "entry restriction"]

/-- Alerts contributed by one article of the top-3 slice. -/
def article_news_alerts (now : Int) (loc country : String) (a : NArticle) :
    List Alert :=
  let title := a.title.getD ""
  let desc := a.description.getD ""
  if travelNewsKeywords.any
      (fun k => strContains (lowerStr title) k || strContains (lowerStr desc) k) then
    [{ type := "travel_advisory", priority := 3,
       title := "Travel Advisory - " ++ country,
       message := "Travel news for " ++ country ++ ": "
         ++ takeStr 100 title ++ "...",
       location := some loc, country := some country,
       source := some (a.source.getD "Unknown"),
       url := some (a.url.getD ""), actionRequired := true,
       createdAt := now }]
  else []

/-- Alerts contributed by one destination: only the location is checked for
falsiness, the country defaults to the location, and only the top three
articles are scanned. -/
def dest_news_alerts (nenv : String → Option NNewsData) (now : Int)
    (dst : Destination) : List Alert :=
  if optFalsy dst.location then []
  else
    let loc := dst.location.getD ""
    let country := dst.country.getD loc
    match nenv country with
    | none => []
    | some nd =>
        joinMap (article_news_alerts now loc country) (nd.articles.take 3)

/-- Embedding of `check_news_alerts` (alerts_handler.py lines 197-248); `nenv` stands for
the result of `news_api.get_travel_news`. -/
def check_news_alerts (nenv : String → Option NNewsData) (now : Int)
    (itin : Option TripItinerary) : List Alert :=
  joinMap (dest_news_alerts nenv now) (itin.getD {}).destinations

/-! ### Document-expiry evaluator (`check_document_alerts`) -/

/-- Document metadata as returned by `s3_client.list_user_documents`. -/
structure DocMeta where
  documentType : Option String := none
  filename : Option String := none
deriving Repr, DecidableEq

/-- Alerts contributed by one document at index `i`; `roll i` is the
`random.random() < 0.2` draw consumed by that document. -/
def doc_alerts_for (now : Int) (roll : Nat → Bool) (i : Nat) (doc : DocMeta) :
    List Alert :=
  if (doc.documentType.getD "") = "identification"
      ∧ strContains (lowerStr (doc.filename.getD "")) "passport"
      ∧ roll i then
    [{ type := "document_expiry", priority := 4,
       title := "Passport Expiry Warning",
       message := "Your passport may expire soon. Please verify the expiry date and renew if necessary.",
       document := doc.filename, actionRequired := true, createdAt := now }]
  else []

def check_document_alerts_aux (now : Int) (roll : Nat → Bool) :
    Nat → List DocMeta → List Alert
  | _, [] => []
  | i, d :: ds =>
      doc_alerts_for now roll i d ++ check_document_alerts_aux now roll (i + 1) ds

/-- Embedding of `check_document_alerts` (alerts_handler.py lines 250-284); `docs` stands
for the S3 listing for the user. -/
def check_document_alerts (docs : List DocMeta) (roll : Nat → Bool)
    (now : Int) : List Alert :=
  check_document_alerts_aux now roll 0 docs

/-! ### User state and the aggregator (`handle_alerts`) -/

/-- The user document stored in the User-State Store, restricted to the
fields the alert and itinerary handlers read or write (other keys of the
loosely-typed JSON blob are never touched by the embedded operations). -/
structure UserData where
  bookings : List Booking := []
  currentItinerary : Option TripItinerary := none
  currentAlerts : List Alert := []
  dismissedAlerts : List (String × Int) := []
  customAlerts : List CustomAlert := []
  lastAlertCheck : Option Int := none
deriving Repr, DecidableEq

/-- The User-State Store: `get_user_data` is function application,
`save_user_data` is `storePut`. -/
def Store : Type := String → Option UserData

def storePut (s : Store) (u : String) (d : UserData) : Store :=
  fun v => if v = u then some d else s v

/-- The JSON response of `handle_alerts`: 400 for a falsy `user_id`, the
`No user data found` body with its empty `alerts` list, or the success body
carrying the sorted alerts, their count and the `last_updated` stamp. -/
inductive AlertsResp where
  | missingUserId
  | noUserData (alerts : List Alert)
  | ok (alerts : List Alert) (count : Nat) (lastUpdated : Int)
deriving Repr, DecidableEq

/-- Everything ambient that `handle_alerts` consumes besides the store: the
clock, the flight random draws, the two adapter results keyed by query, the
user's S3 document listing with the expiry draws, and whether the final
`save_user_data` write succeeds. -/
structure AlertsEnv where
  now : Int
  flight : FlightEnv
  weather : String → Option WForecast
  news : String → Option NNewsData
  documents : List DocMeta
  docRoll : Nat → Bool
  saveOk : Bool

/-- Embedding of `handle_alerts` (alerts_handler.py lines 17-66): loads the user state,
runs the four evaluators in the fixed order flight, weather, news, document,
sorts the concatenation by priority descending (Python stable sort), writes
the full replacement back (the write result is ignored by the source), and
returns the sorted list. -/
def handle_alerts (env : AlertsEnv) (store : Store) (userId : String) :
    AlertsResp × Store :=
  if userId.isEmpty then (.missingUserId, store)
  else
    match store userId with
    | none => (.noUserData [], store)
    | some d =>
        let alerts :=
          check_flight_alerts env.flight env.now d.bookings
            ++ check_weather_alerts env.weather env.now d.currentItinerary
            ++ check_news_alerts env.news env.now d.currentItinerary
            ++ check_document_alerts env.documents env.docRoll env.now
        let sorted := sortDescBy Alert.priority alerts
        let d2 := { d with lastAlertCheck := some env.now,
                           currentAlerts := sorted }
        let store2 := if env.saveOk then storePut store userId d2 else store
        (.ok sorted sorted.length env.now, store2)

/-! ### Custom alerts (`create_custom_alert`) -/

/-- The `alert` dict of a custom-alert request, restricted to the keys the
handler reads; Python dict truthiness (`if not alert_data`) is emptiness of
all keys. -/
structure AlertSpec where
  priority : Option Int := none
  title : Option String := none
  message : Option String := none
  triggerDate : Option String := none
  actionRequired : Option Bool := none
deriving Repr, DecidableEq

def AlertSpec.isEmptyDict (s : AlertSpec) : Bool :=
  s.priority.isNone && s.title.isNone && s.message.isNone
    && s.triggerDate.isNone && s.actionRequired.isNone

/-- The request body of `create_custom_alert`. -/
structure CustomReq where
  userId : Option String := none
  alert : Option AlertSpec := none
deriving Repr, DecidableEq

inductive CustomResp where
  | badRequest
  | created (a : CustomAlert)
  | saveFailed
deriving Repr, DecidableEq

/-- Embedding of `create_custom_alert` (alerts_handler.py lines 324-364): rejects a falsy
`user_id` or a falsy (missing or empty) `alert` dict, then builds the custom
alert with `priority` defaulting to 1, `title` to `Custom Alert`, `message`
to the empty string and `action_required` to `False`, and appends it to the
user's `custom_alerts` list (creating the user document if absent). -/
def create_custom_alert (now : Int) (saveOk : Bool) (store : Store)
    (req : CustomReq) : CustomResp × Store :=
  let spec := req.alert.getD {}
  if optFalsy req.userId ∨ spec.isEmptyDict then (.badRequest, store)
  else
    let uid := req.userId.getD ""
    let ca : CustomAlert :=
      { priority := spec.priority.getD 1,
        title := spec.title.getD "Custom Alert",
        message := spec.message.getD "",
        triggerDate := spec.triggerDate,
        actionRequired := spec.actionRequired.getD false,
        createdAt := now }
    let d := (store uid).getD {}
    let d2 := { d with customAlerts := d.customAlerts ++ [ca] }
    if saveOk then (.created ca, storePut store uid d2)
    else (.saveFailed, store)

/-! ### Dismissal (`dismiss_alert`) -/

/-- The request body of `dismiss_alert`. -/
structure DismissReq where
  userId : Option String := none
  alertId : Option String := none
deriving Repr, DecidableEq

inductive DismissResp where
  | badRequest
  | userNotFound
  | dismissed
  | saveFailed
deriving Repr, DecidableEq

/-- Embedding of `dismiss_alert` (alerts_handler.py lines 366-399): rejects falsy inputs,
returns 404 only when the user document is absent, and otherwise appends
`(alert_id, dismissed_at)` to `dismissed_alerts` and reports success —
without ever consulting `current_alerts` for the id. -/
def dismiss_alert (now : Int) (saveOk : Bool) (store : Store)
    (req : DismissReq) : DismissResp × Store :=
  if optFalsy req.userId ∨ optFalsy req.alertId then (.badRequest, store)
  else
    let uid := req.userId.getD ""
    match store uid with
    | none => (.userNotFound, store)
    | some d =>
        let d2 := { d with dismissedAlerts :=
                      d.dismissedAlerts ++ [(req.alertId.getD "", now)] }
        if saveOk then (.dismissed, storePut store uid d2)
        else (.saveFailed, store)

/-! ### Itineraries (`itinerary_handler.py`) -/

/-- The `itinerary_data` request dict, restricted to the updatable keys that
bear on the duration invariant plus the presence-checked required keys; the
outer `Option` is key presence (the source tests `field in itinerary_data`),
and date values carry their parse outcome. -/
structure ItinData where
  destination : Option String := none
  startDate : Option DateField := none
  endDate : Option DateField := none
  title : Option String := none
  description : Option String := none
  days : Option (List Nat) := none
  travelers : Option Int := none
deriving Repr, DecidableEq

/-- A stored itinerary record (budget and preferences, which no embedded
operation reads, are omitted; `days` entries are abstracted to their day
numbers, the only field `create_default_day_structure` varies). -/
structure StoredItin where
  userId : String := ""
  destination : String := ""
  startDate : DateField := .missing
  endDate : DateField := .missing
  title : String := ""
  description : String := ""
  days : List Nat := []
  travelers : Int := 1
  durationDays : Int := 0
  status : String := "draft"
  createdAt : Int := 0
  updatedAt : Int := 0
deriving Repr, DecidableEq

/-- Embedding of `create_default_day_structure` reduced to the day numbers
`range(1, duration + 1)` it generates. -/
def default_day_numbers (duration : Int) : List Nat :=
  (List.range duration.toNat).map (· + 1)

inductive ItinResp where
  | missingField (f : String)
  | created (i : StoredItin)
  | updated (i : StoredItin)
  | itineraryNotFound
  | saveFailed
  | serverError
deriving Repr, DecidableEq

/-- Embedding of `create_itinerary` (itinerary_handler.py lines 42-93).  The second
component is the record passed to `save_itinerary`, `none` when the handler
errors out before saving (missing field, or a date whose parse raises and is
converted to the 500 response by the blanket handler). -/
def create_itinerary (now : Int) (saveOk : Bool) (userId : String)
    (d : ItinData) : ItinResp × Option StoredItin :=
  match d.destination with
  | none => (.missingField "destination", none)
  | some dest =>
    match d.startDate with
    | none => (.missingField "start_date", none)
    | some sd =>
      match d.endDate with
      | none => (.missingField "end_date", none)
      | some ed =>
        match sd, ed with
        | .parsed s, .parsed e =>
            let duration := Int.fdiv (e - s) 86400 + 1
            let givenDays := d.days.getD []
            let itin : StoredItin :=
              { userId := userId,
                destination := dest,
                startDate := .parsed s,
                endDate := .parsed e,
                title := d.title.getD ("Trip to " ++ dest),
                description := d.description.getD "",
                days := if givenDays.isEmpty then default_day_numbers duration
                        else givenDays,
                travelers := d.travelers.getD 1,
                durationDays := duration,
                status := "draft",
                createdAt := now, updatedAt := now }
            ((if saveOk then .created itin else .saveFailed), some itin)
        | _, _ => (.serverError, none)

/-- The field-update loop of `update_itinerary` over the updatable keys the
embedding carries. -/
def applyItinUpdates (ex : StoredItin) (d : ItinData) : StoredItin :=
  let ex := match d.title with | some t => { ex with title := t } | none => ex
  let ex := match d.description with
            | some t => { ex with description := t } | none => ex
  let ex := match d.days with | some t => { ex with days := t } | none => ex
  let ex := match d.travelers with
            | some t => { ex with travelers := t } | none => ex
  let ex := match d.destination with
            | some t => { ex with destination := t } | none => ex
  let ex := match d.startDate with
            | some t => { ex with startDate := t } | none => ex
  match d.endDate with | some t => { ex with endDate := t } | none => ex

/-- Embedding of `update_itinerary` (itinerary_handler.py lines 95-137): overwrites the
supplied fields, stamps `updated_at`, and re-derives `duration_days` from
the final dates exactly when the request carried `start_date` or `end_date`
(an unparseable final date raises and becomes the 500 response, saving
nothing).  `existing` is the `get_itinerary` result. -/
def update_itinerary (now : Int) (saveOk : Bool)
    (existing : Option StoredItin) (d : ItinData) :
    ItinResp × Option StoredItin :=
  match existing with
  | none => (.itineraryNotFound, none)
  | some ex =>
      let ex2 := { applyItinUpdates ex d with updatedAt := now }
      if d.startDate.isSome ∨ d.endDate.isSome then
        match ex2.startDate, ex2.endDate with
        | .parsed s, .parsed e =>
            let ex3 := { ex2 with durationDays := Int.fdiv (e - s) 86400 + 1 }
            ((if saveOk then .updated ex3 else .saveFailed), some ex3)
        | _, _ => (.serverError, none)
      else
        ((if saveOk then .updated ex2 else .saveFailed), some ex2)

/-- The duration invariant of §3: stored dates parse and
`duration_days == (end_date - start_date).days + 1`. -/
def ItinInv (r : StoredItin) : Prop :=
  ∃ s e, r.startDate = .parsed s ∧ r.endDate = .parsed e
    ∧ r.durationDays = Int.fdiv (e - s) 86400 + 1

/-! ### Document classifier (`S3Client._classify_document_type`) -/

/-- Embedding of `_classify_document_type` (s3_client.py lines 184-199): lower-cases the
filename and tests the five keyword sets in their fixed order, first match
wins, defaulting to `other`. -/
def classify_document_type (filename : String) : String :=
  let f := lowerStr filename
  if containsAny f ["passport", "visa", "id"] then "identification"
  else if containsAny f ["ticket", "boarding", "flight"] then "flight_document"
  else if containsAny f ["hotel", "reservation", "booking"] then "accommodation"
  else if containsAny f ["insurance", "policy"] then "insurance"
  else if containsAny f ["itinerary", "plan", "schedule"] then "itinerary"
  else "other"

/-! ### News adapter (`api_clients/news_api.py`) -/

/-- A raw NewsAPI.org article as `_get_newsapi_travel_news`,
`_is_travel_relevant`, `_calculate_relevance` and `_categorize_news` read
it; `publishedAt` carries the parse outcome of the `publishedAt` value. -/
structure RawArticle where
  title : Option String := none
  description : Option String := none
  url : Option String := none
  sourceName : Option String := none
  publishedAt : DateField := .missing
  author : Option String := none
  content : Option String := none
deriving Repr, DecidableEq

def priorityNewsKeywords : List String :=
  ["security alert", "travel warning", "embassy", "border closure"]

def mediumNewsKeywords : List String := ["flight", "airport", "hotel", "tourism"]

def relevantNewsKeywords : List String :=
  ["travel", "tourism", "airport", "flight", "hotel", "border",
   "visa", "embassy", "security", "alert", "warning", "advisory"]

/-- The recency term of `_calculate_relevance`: +0.2 under 6 h old, +0.1
under 24 h, otherwise 0, and 0 whenever the timestamp is absent or fails to
parse (the bare `except: pass`). -/
def recency_bonus (now : Int) (p : DateField) : ℚ :=
  match p with
  | .parsed t =>
      if now - t < 6 * 3600 then 1 / 5
      else if now - t < 24 * 3600 then 1 / 10
      else 0
  | _ => 0

/-- Embedding of `NewsAPI._calculate_relevance` (news_api.py lines 356-399): location
bonuses, one priority-keyword bonus (the loop breaks after the first match),
one medium-keyword bonus, the recency bonus, capped at 1.0. -/
def calculate_relevance (now : Int) (a : RawArticle) (loc : String) : ℚ :=
  let title := lowerStr (a.title.getD "")
  let desc := lowerStr (a.description.getD "")
  let locL := lowerStr loc
  let s1 : ℚ := if strContains title locL then 1 / 2 else 0
  let s2 : ℚ := if strContains desc locL then 3 / 10 else 0
  let s3 : ℚ :=
    if priorityNewsKeywords.any
        (fun k => strContains title k || strContains desc k) then 2 / 5 else 0
  let s4 : ℚ :=
    if mediumNewsKeywords.any
        (fun k => strContains title k || strContains desc k) then 1 / 5 else 0
  min (s1 + s2 + s3 + s4 + recency_bonus now a.publishedAt) 1

/-- Embedding of `NewsAPI._is_travel_relevant`. -/
def is_travel_relevant (a : RawArticle) (loc : String) : Bool :=
  let title := lowerStr (a.title.getD "")
  let desc := lowerStr (a.description.getD "")
  let locL := lowerStr loc
  (strContains title locL || strContains desc locL)
    && relevantNewsKeywords.any (fun k => strContains title k || strContains desc k)

/-- Embedding of `NewsAPI._categorize_news`. -/
def categorize_news (a : RawArticle) : String :=
  let title := lowerStr (a.title.getD "")
  let desc := lowerStr (a.description.getD "")
  let hit := fun (ws : List String) =>
    ws.any (fun w => strContains title w || strContains desc w)
  if hit ["security", "alert", "warning", "embassy"] then "security"
  else if hit ["flight", "airline", "airport"] then "transportation"
  else if hit ["weather", "storm", "hurricane", "flood"] then "weather"
  else if hit ["hotel", "accommodation", "booking"] then "accommodation"
  else if hit ["tourism", "attraction", "festival"] then "tourism"
  else "general"

/-- A normalized article as `get_travel_news` returns it. -/
structure NewsArticleOut where
  title : String := ""
  description : String := ""
  url : String := ""
  source : String := ""
  publishedAt : DateField := .missing
  author : String := ""
  contentSnippet : String := ""
  relevanceScore : ℚ := 0
  category : String := ""
deriving Repr, DecidableEq

/-- The article-normalization step inside `_get_newsapi_travel_news`. -/
def normalize_newsapi_article (now : Int) (loc : String) (a : RawArticle) :
    NewsArticleOut :=
  { title := a.title.getD "",
    description := a.description.getD "",
    url := a.url.getD "",
    source := a.sourceName.getD "",
    publishedAt := a.publishedAt,
    author := a.author.getD "",
    contentSnippet :=
      if optFalsy a.content then "" else takeStr 200 (a.content.getD ""),
    relevanceScore := calculate_relevance now a loc,
    category := categorize_news a }

/-- The `get_travel_news` result body (the `timestamp` and `date_range`
bookkeeping strings of the source dict are omitted; no claim reads them). -/
structure NewsResult where
  location : String
  articles : List NewsArticleOut
  totalFound : Nat
  source : String
deriving Repr, DecidableEq

/-- Outcome of one live HTTP fetch: a parsed payload, a transport error from
`requests.get`, a non-2xx status surfaced by `raise_for_status`, or a
`.json()` parse failure.  All three failure shapes take the same `except`
path in the source. -/
inductive FetchOutcome (α : Type) where
  | ok (value : α)
  | transportError
  | httpError
  | parseError
deriving Repr, DecidableEq

/-- A raw Guardian article as `_get_guardian_travel_news` reads it. -/
structure GRawArticle where
  webTitle : Option String := none
  webUrl : Option String := none
  standfirst : Option String := none
  byline : Option String := none
  body : Option String := none
  webPublicationDate : DateField := .missing
deriving Repr, DecidableEq

/-- Credentials of `NewsAPI.__init__` (environment variables, falsy when
unset or empty). -/
structure NewsConfig where
  newsapiKey : Option String := none
  guardianKey : Option String := none
deriving Repr, DecidableEq

/-- The ambient world a `get_travel_news` call sees: the clock and the two
providers' responses. -/
structure NewsEnv where
  now : Int
  newsapi : FetchOutcome (List RawArticle)
  guardian : FetchOutcome (List GRawArticle)

/-- Embedding of `NewsAPI._get_newsapi_travel_news` (news_api.py lines 52-118): on a
parsed 2xx payload it filters by `_is_travel_relevant`, normalizes, sorts
descending by relevance (Python stable sort), caps at 10 and tags
`source: "newsapi"`; on any failure its own `except` swallows the exception
and it returns `None`. -/
def get_newsapi_travel_news (env : NewsEnv) (loc : String) :
    Option NewsResult :=
  match env.newsapi with
  | .ok raws =>
      let arts := (raws.filter (fun a => is_travel_relevant a loc)).map
        (normalize_newsapi_article env.now loc)
      some { location := loc,
             articles := (sortDescBy NewsArticleOut.relevanceScore arts).take 10,
             totalFound := arts.length,
             source := "newsapi" }
  | _ => none

/-- Embedding of `NewsAPI._get_guardian_travel_news` (news_api.py lines 120-167): fixed
relevance 0.8, category `news`, source name `The Guardian`, result tagged
`source: "guardian"`; `None` on any failure. -/
def get_guardian_travel_news (env : NewsEnv) (loc : String) :
    Option NewsResult :=
  match env.guardian with
  | .ok raws =>
      some { location := loc,
             articles := raws.map (fun a =>
               { title := a.webTitle.getD "",
                 description := a.standfirst.getD "",
                 url := a.webUrl.getD "",
                 source := "The Guardian",
                 publishedAt := a.webPublicationDate,
                 author := a.byline.getD "",
                 contentSnippet :=
                   if optFalsy a.body then "" else takeStr 200 (a.body.getD ""),
                 relevanceScore := 4 / 5,
                 category := "news" }),
             totalFound := raws.length,
             source := "guardian" }
  | _ => none

/-- Embedding of `NewsAPI._get_mock_travel_news` (news_api.py lines 229-274): the three
hard-coded articles, tagged `source: "mock"`. -/
def mock_travel_news (now : Int) (loc : String) : NewsResult :=
  { location := loc,
    articles :=
      [{ title := "New Flight Routes to " ++ loc ++ " Announced",
         description := "Major airline announces new direct flights to "
           ++ loc ++ ", improving connectivity for travelers.",
         url := "https://example.com/news1",
         source := "Travel Weekly",
         publishedAt := .parsed (now - 2 * 3600),
         author := "Jane Smith",
         contentSnippet := "The new routes to " ++ loc
           ++ " will begin operating next month...",
         relevanceScore := 9 / 10,
         category := "transportation" },
       { title := "Tourism in " ++ loc ++ " Shows Strong Recovery",
         description := "Latest statistics show tourism numbers in " ++ loc
           ++ " are bouncing back.",
         url := "https://example.com/news2",
         source := "Tourism Today",
         publishedAt := .parsed (now - 6 * 3600),
         author := "Mike Johnson",
         contentSnippet := "Visitor arrivals to " ++ loc
           ++ " have increased by 25% compared to...",
         relevanceScore := 7 / 10,
         category := "tourism" },
       { title := "Weather Alert: Heavy Rain Expected in " ++ loc,
         description := "Meteorologists warn of heavy rainfall in " ++ loc
           ++ " region this week.",
         url := "https://example.com/news3",
         source := "Weather Central",
         publishedAt := .parsed (now - 3600),
         author := "Sarah Weather",
         contentSnippet := "Heavy rain is expected to affect " ++ loc
           ++ " starting tomorrow...",
         relevanceScore := 4 / 5,
         category := "weather" }],
    totalFound := 3,
    source := "mock" }

/-- Embedding of `NewsAPI.get_travel_news` (news_api.py lines 24-37).  The dispatch tries
NewsAPI when its key is truthy, else the Guardian when its key is truthy,
else the mock data.  The source's outer `except`-to-mock fallback is
unreachable: both live helpers swallow their own exceptions and return
`None`, so a live failure propagates as `None`, not as the mock result.
`daysBack` only shapes the HTTP query, which `env` abstracts. -/
def get_travel_news (cfg : NewsConfig) (env : NewsEnv) (loc : String)
    (daysBack : Int := 7) : Option NewsResult :=
  let _ := daysBack
  if ¬ optFalsy cfg.newsapiKey then get_newsapi_travel_news env loc
  else if ¬ optFalsy cfg.guardianKey then get_guardian_travel_news env loc
  else some (mock_travel_news env.now loc)

/-! ### Weather adapter (`api_clients/weather_api.py`) -/

/-- One 3-hourly entry of the OpenWeatherMap forecast payload, flattened to
the keys `_get_openweather_forecast` reads (each behind a `.get(..., 0)` or
`.get(..., '')` default). -/
structure OWEntry where
  dt : Option Int := none
  temp : Option ℚ := none
  tempMin : Option ℚ := none
  tempMax : Option ℚ := none
  humidity : Option ℚ := none
  description : Option String := none
  icon : Option String := none
  windSpeed : Option ℚ := none
  rain3h : Option ℚ := none
  snow3h : Option ℚ := none
deriving Repr, DecidableEq

structure OWCity where
  name : Option String := none
  country : Option String := none
  lat : Option ℚ := none
  lon : Option ℚ := none
deriving Repr, DecidableEq

structure OWPayload where
  entries : List OWEntry := []
  city : OWCity := {}
deriving Repr, DecidableEq

/-- One day of the WeatherAPI.com forecast payload as
`_get_weatherapi_forecast` reads it. -/
structure WARawDay where
  date : Option String := none
  mintempC : Option ℚ := none
  maxtempC : Option ℚ := none
  avgtempC : Option ℚ := none
  conditionText : Option String := none
  conditionIcon : Option String := none
  avghumidity : Option ℚ := none
  maxwindKph : Option ℚ := none
  totalprecipMm : Option ℚ := none
  uv : Option ℚ := none
deriving Repr, DecidableEq

structure WALocation where
  name : Option String := none
  country : Option String := none
  lat : Option ℚ := none
  lon : Option ℚ := none
deriving Repr, DecidableEq

/-- A WeatherAPI.com alert entry, passed through untransformed by the
forecast call. -/
structure WARawAlert where
  headline : Option String := none
  desc : Option String := none
deriving Repr, DecidableEq

structure WAPayload where
  location : WALocation := {}
  forecastday : List WARawDay := []
  alerts : List WARawAlert := []
deriving Repr, DecidableEq

/-- A normalized forecast day as `get_forecast` returns it.  `uvIndex` is
`none` on the OpenWeatherMap branch, whose day dicts carry no `uv_index`
key. -/
structure ForecastDayOut where
  date : String := ""
  tempMin : ℚ := 0
  tempMax : ℚ := 0
  tempAvg : ℚ := 0
  description : String := ""
  icon : String := ""
  humidity : ℚ := 0
  windSpeed : ℚ := 0
  precipitation : ℚ := 0
  uvIndex : Option ℚ := none
deriving Repr, DecidableEq

structure LocationOut where
  name : String := ""
  country : String := ""
  lat : ℚ := 0
  lon : ℚ := 0
deriving Repr, DecidableEq

/-- The `get_forecast` result body (`timestamp` omitted; no claim reads it).
`alerts` is `none` on the OpenWeatherMap branch, whose result dict has no
`alerts` key. -/
structure ForecastResult where
  location : LocationOut
  forecast : List ForecastDayOut
  alerts : Option (List WARawAlert) := none
  source : String
deriving Repr, DecidableEq

/-- Credentials of `WeatherAPI.__init__`. -/
structure WeatherConfig where
  openweatherKey : Option String := none
  weatherapiKey : Option String := none
deriving Repr, DecidableEq

/-- The randomness stream `_get_mock_forecast` consumes per day index, plus
the two coordinate draws. -/
structure MockWeatherRand where
  lat : ℚ := 0
  lon : ℚ := 0
  tempMin : Nat → Int := fun _ => 5
  tempMax : Nat → Int := fun _ => 20
  tempAvg : Nat → Int := fun _ => 10
  humidity : Nat → Int := fun _ => 40
  windSpeed : Nat → Int := fun _ => 5
  precipitation : Nat → ℚ := fun _ => 0
  uvIndex : Nat → Int := fun _ => 1
  condition : Nat → Fin 8 := fun _ => 0
  icon : Nat → Fin 7 := fun _ => 0

/-- The ambient world a `get_forecast` call sees: the clock, a rendering of
day numbers to ISO date strings (`date.isoformat`, calendar arithmetic
abstracted), the two providers' responses and the mock randomness. -/
structure WeatherEnv where
  now : Int
  fmtDate : Int → String
  openweather : FetchOutcome OWPayload
  weatherapi : FetchOutcome WAPayload
  mock : MockWeatherRand

def mockConditionNames : Fin 8 → String
  | 0 => "Clear"
  | 1 => "Partly Cloudy"
  | 2 => "Cloudy"
  | 3 => "Light Rain"
  | 4 => "Heavy Rain"
  | 5 => "Sunny"
  | 6 => "Overcast"
  | 7 => "Thunderstorm"

def mockIconNames : Fin 7 → String
  | 0 => "01d"
  | 1 => "02d"
  | 2 => "03d"
  | 3 => "04d"
  | 4 => "09d"
  | 5 => "10d"
  | 6 => "11d"

/-- The day a 3-hourly entry falls on
(`datetime.fromtimestamp(dt).date()`; the process-local timezone offset is
abstracted to UTC day numbering). -/
def owDayNumber (e : OWEntry) : Int := Int.fdiv (e.dt.getD 0) 86400

/-- A fresh daily dict opened from the first entry of a day. -/
def ow_day_from_entry (fmtDate : Int → String) (dayNum : Int) (e : OWEntry) :
    ForecastDayOut :=
  { date := fmtDate dayNum,
    tempMin := e.tempMin.getD 0,
    tempMax := e.tempMax.getD 0,
    tempAvg := e.temp.getD 0,
    description := e.description.getD "",
    icon := e.icon.getD "",
    humidity := e.humidity.getD 0,
    windSpeed := e.windSpeed.getD 0,
    precipitation := e.rain3h.getD 0 + e.snow3h.getD 0,
    uvIndex := none }

/-- The grouping loop of `_get_openweather_forecast`: a new day closes the
current dict, a repeated day only widens its min/max with the entry's
`temp`. -/
def ow_group_aux (fmtDate : Int → String) :
    Int → ForecastDayOut → List OWEntry → List ForecastDayOut
  | _, cur, [] => [cur]
  | curDate, cur, e :: es =>
      let d := owDayNumber e
      if d ≠ curDate then
        cur :: ow_group_aux fmtDate d (ow_day_from_entry fmtDate d e) es
      else
        let temp := e.temp.getD 0
        ow_group_aux fmtDate curDate
          { cur with tempMin := min cur.tempMin temp,
                     tempMax := max cur.tempMax temp } es

def ow_group_days (fmtDate : Int → String) : List OWEntry → List ForecastDayOut
  | [] => []
  | e :: es =>
      ow_group_aux fmtDate (owDayNumber e)
        (ow_day_from_entry fmtDate (owDayNumber e) e) es

/-- Embedding of `WeatherAPI._get_openweather_forecast` (weather_api.py lines 96-167):
groups the 3-hourly entries by day, caps at `days`, tags
`source: "openweathermap"`; `None` on any failure (its own `except` swallows
the exception). -/
def get_openweather_forecast (env : WeatherEnv) (loc : String) (days : Nat) :
    Option ForecastResult :=
  match env.openweather with
  | .ok p =>
      some { location := { name := p.city.name.getD loc,
                           country := p.city.country.getD "",
                           lat := p.city.lat.getD 0,
                           lon := p.city.lon.getD 0 },
             forecast := (ow_group_days env.fmtDate p.entries).take days,
             alerts := none,
             source := "openweathermap" }
  | _ => none

/-- Embedding of `WeatherAPI._get_weatherapi_forecast` (weather_api.py lines 218-281):
maps the per-day payload, passes the provider alerts through, tags
`source: "weatherapi"`; `None` on any failure.  The `min(days, 10)` only
shapes the HTTP query, which `env` abstracts. -/
def get_weatherapi_forecast (env : WeatherEnv) (loc : String) (days : Nat) :
    Option ForecastResult :=
  let _ := days
  match env.weatherapi with
  | .ok p =>
      some { location := { name := p.location.name.getD loc,
                           country := p.location.country.getD "",
                           lat := p.location.lat.getD 0,
                           lon := p.location.lon.getD 0 },
             forecast := p.forecastday.map (fun day =>
               { date := day.date.getD "",
                 tempMin := day.mintempC.getD 0,
                 tempMax := day.maxtempC.getD 0,
                 tempAvg := day.avgtempC.getD 0,
                 description := day.conditionText.getD "",
                 icon := day.conditionIcon.getD "",
                 humidity := day.avghumidity.getD 0,
                 windSpeed := day.maxwindKph.getD 0,
                 precipitation := day.totalprecipMm.getD 0,
                 uvIndex := some (day.uv.getD 0) }),
             alerts := some p.alerts,
             source := "weatherapi" }
  | _ => none

/-- Embedding of `WeatherAPI._get_mock_forecast` (weather_api.py lines 318-365): one
randomized day per index, empty `alerts`, tagged `source: "mock"`. -/
def mock_forecast (env : WeatherEnv) (loc : String) (days : Nat) :
    ForecastResult :=
  { location := { name := loc, country := "Unknown",
                  lat := env.mock.lat, lon := env.mock.lon },
    forecast := (List.range days).map (fun (i : Nat) =>
      { date := env.fmtDate (Int.fdiv env.now 86400 + (i : Int)),
        tempMin := (env.mock.tempMin i : ℚ),
        tempMax := (env.mock.tempMax i : ℚ),
        tempAvg := (env.mock.tempAvg i : ℚ),
        description := mockConditionNames (env.mock.condition i),
        icon := mockIconNames (env.mock.icon i),
        humidity := (env.mock.humidity i : ℚ),
        windSpeed := (env.mock.windSpeed i : ℚ),
        precipitation := env.mock.precipitation i,
        uvIndex := some (env.mock.uvIndex i : ℚ) }),
    alerts := some [],
    source := "mock" }

/-- Embedding of `WeatherAPI.get_forecast` (weather_api.py lines 35-48).  Dispatches to
OpenWeatherMap when its key is truthy, else WeatherAPI.com when its key is
truthy, else the mock data.  As with the news adapter, the outer
`except`-to-mock fallback is unreachable: both live helpers swallow their
exceptions and return `None`. -/
def get_forecast (cfg : WeatherConfig) (env : WeatherEnv) (loc : String)
    (days : Nat := 5) : Option ForecastResult :=
  if ¬ optFalsy cfg.openweatherKey then get_openweather_forecast env loc days
  else if ¬ optFalsy cfg.weatherapiKey then get_weatherapi_forecast env loc days
  else some (mock_forecast env loc days)

/-! ## Claim C1: adapter never-raise / provenance contract -/

def c1NewsKeyCfg : NewsConfig := { newsapiKey := some "k" }

def c1NewsFailEnv : NewsEnv :=
  { now := 0, newsapi := .transportError, guardian := .transportError }

def c1NewsOkEnv : NewsEnv :=
  { now := 0, newsapi := .ok [], guardian := .ok [] }

def c1WeatherKeyCfg : WeatherConfig := { openweatherKey := some "k" }

def c1WeatherFailEnv : WeatherEnv :=
  { now := 0, fmtDate := fun _ => "1970-01-01",
    openweather := .transportError, weatherapi := .transportError, mock := {} }

def c1WeatherOkEnv : WeatherEnv :=
  { c1WeatherFailEnv with openweather := .ok {}, weatherapi := .ok {} }

/-- Claim C1.  The embedded adapters are total (never raise), and on the
unconfigured and live-success paths they do return provenance-tagged
results (`mock`, `newsapi`, `guardian`, `openweathermap`, `weatherapi`).
But the claim that they never return an absent result is false: when
credentials are configured and the live fetch fails (transport error,
non-2xx, or parse failure), `get_travel_news` and `get_forecast` return
`None` — the inner provider helpers swallow their own exceptions, so the
outer fallback-to-mock handler the design intends is dead code.  This
theorem evaluates both adapters on every branch. -/
theorem C1_adapter_fallback_bug :
    get_travel_news c1NewsKeyCfg c1NewsFailEnv "Paris" = none
    ∧ get_travel_news c1NewsKeyCfg { c1NewsFailEnv with newsapi := .httpError }
        "Paris" = none
    ∧ get_travel_news c1NewsKeyCfg { c1NewsFailEnv with newsapi := .parseError }
        "Paris" = none
    ∧ get_forecast c1WeatherKeyCfg c1WeatherFailEnv "Paris" = none
    ∧ get_forecast c1WeatherKeyCfg
        { c1WeatherFailEnv with openweather := .httpError } "Paris" = none
    ∧ get_forecast { weatherapiKey := some "k" }
        { c1WeatherFailEnv with weatherapi := .parseError } "Paris" = none
    ∧ (get_travel_news {} c1NewsFailEnv "Paris").map NewsResult.source
        = some "mock"
    ∧ (get_forecast {} c1WeatherFailEnv "Paris").map ForecastResult.source
        = some "mock"
    ∧ (get_travel_news c1NewsKeyCfg c1NewsOkEnv "Paris").map NewsResult.source
        = some "newsapi"
    ∧ (get_travel_news { guardianKey := some "k" } c1NewsOkEnv "Paris").map
        NewsResult.source = some "guardian"
    ∧ (get_forecast c1WeatherKeyCfg c1WeatherOkEnv "Paris").map
        ForecastResult.source = some "openweathermap"
    ∧ (get_forecast { weatherapiKey := some "k" } c1WeatherOkEnv "Paris").map
        ForecastResult.source = some "weatherapi" :=
  ⟨rfl, rfl, rfl, rfl, rfl, rfl, rfl, rfl, rfl, rfl, rfl, rfl⟩

/-! ## Claim C2: the aggregator sorts stably, descending by priority -/

/-- The concatenation of the four evaluators' outputs in the fixed order
flight, weather, news, document, exactly as `handle_alerts` builds it. -/
def evaluator_concat (env : AlertsEnv) (d : UserData) : List Alert :=
  check_flight_alerts env.flight env.now d.bookings
    ++ check_weather_alerts env.weather env.now d.currentItinerary
    ++ check_news_alerts env.news env.now d.currentItinerary
    ++ check_document_alerts env.documents env.docRoll env.now

/-- Claim C2.  For every environment and every stored user, the list
`handle_alerts` returns, and the `current_alerts` replacement it persists,
are the stable descending-by-priority sort of the four evaluators'
concatenated output: pairwise `alerts[i].priority ≥ alerts[j].priority` for
`i < j`, and for each priority value the subsequence of alerts at that
priority equals the one of the emission order (ties keep insertion
order). -/
theorem C2_sorted_stable (env : AlertsEnv) (store : Store) (uid : String)
    (d : UserData) (hu : uid.isEmpty = false) (hd : store uid = some d)
    (hs : env.saveOk = true) :
    (handle_alerts env store uid).1 =
      .ok (sortDescBy Alert.priority (evaluator_concat env d))
        (sortDescBy Alert.priority (evaluator_concat env d)).length env.now
    ∧ (handle_alerts env store uid).2 =
        storePut store uid
          { d with lastAlertCheck := some env.now,
                   currentAlerts := sortDescBy Alert.priority (evaluator_concat env d) }
    ∧ (sortDescBy Alert.priority (evaluator_concat env d)).Pairwise
        (fun a b => b.priority ≤ a.priority)
    ∧ ∀ p : Int,
        (sortDescBy Alert.priority (evaluator_concat env d)).filter
            (fun a => decide (a.priority = p)) =
          (evaluator_concat env d).filter (fun a => decide (a.priority = p)) := by
  unfold handle_alerts evaluator_concat
  rw [hu, hd, hs]
  exact ⟨rfl, rfl, pairwise_sortDescBy _ _, fun p => filter_sortDescBy _ p _⟩

def c2Env : AlertsEnv :=
  { now := 0, flight := { roll := fun _ => false, gate := fun _ => 0 },
    weather := fun _ => none, news := fun _ => none,
    documents := [], docRoll := fun _ => false, saveOk := true }

def c2Store : Store := fun v => if v = "u1" then some {} else none

/-- Witness instantiating `C2_sorted_stable` on a concrete store. -/
theorem C2_witness :
    ("u1".isEmpty = false) ∧ (c2Store "u1" = some ({} : UserData))
    ∧ (c2Env.saveOk = true)
    ∧ (handle_alerts c2Env c2Store "u1").1 = .ok [] 0 0 :=
  ⟨rfl, rfl, rfl, (C2_sorted_stable c2Env c2Store "u1" {} rfl rfl rfl).1⟩

/-! ## Claim C3: flight-timing windows -/

theorem check_flight_aborts (env : FlightEnv) (now : Int) (i : Nat)
    (b : Booking) (bs : List Booking)
    (hb : flight_booking_raises b = true) :
    check_flight_alerts_aux env now i (b :: bs) = [] := by
  simp only [check_flight_alerts_aux]
  rw [hb]
  rfl

theorem check_flight_cons (env : FlightEnv) (now : Int) (i : Nat)
    (b : Booking) (bs : List Booking)
    (hb : flight_booking_raises b = false) :
    check_flight_alerts_aux env now i (b :: bs) =
      flight_alerts_for env now i b
        ++ check_flight_alerts_aux env now (i + 1) bs := by
  simp only [check_flight_alerts_aux]
  rw [hb]
  rfl

theorem check_flight_single (env : FlightEnv) (now : Int) (b : Booking)
    (hb : flight_booking_raises b = false) :
    check_flight_alerts env now [b] = flight_alerts_for env now 0 b := by
  unfold check_flight_alerts
  rw [check_flight_cons env now 0 b [] hb]
  simp [check_flight_alerts_aux]

/-- A confirmed flight booking whose departure string parses to a
timezone-naive datetime (no `Z` / UTC-offset suffix). -/
def mkFlightBooking (dep : Int) (bid fn : Option String) : Booking :=
  { type := some "flight", status := some "confirmed", bookingId := bid,
    details := { departureDate := .parsedNaive dep, flightNumber := fn } }

/-- A confirmed flight booking whose departure string carries `Z` or a UTC
offset and therefore parses timezone-aware: the evaluator's subtraction
raises on it. -/
def mkAwareFlightBooking (dep : Int) (bid fn : Option String) : Booking :=
  { type := some "flight", status := some "confirmed", bookingId := bid,
    details := { departureDate := .parsedAware dep, flightNumber := fn } }

def c3EnvRoll : FlightEnv := { roll := fun _ => true, gate := fun _ => 0 }

/-- Claim C3, counterexample.  Two failure modes of the claim as stated.
At exactly 2.5 h before departure the gate-change window `0h ≤ diff ≤ 6h`
also applies, so when the probabilistic draw fires the evaluator emits a
`gate_change` alert alongside the `departure_reminder`: two alerts, not
"exactly one … and no other alert".  And a departure string carrying a `Z`
suffix is parseable — to an aware datetime — yet at exactly 23 h out the
evaluator emits no alert at all instead of the claimed check-in reminder,
because the aware-minus-naive subtraction raises and the function-level
`except` aborts the loop. -/
theorem C3_counterexample :
    (check_flight_alerts c3EnvRoll 0
        [mkFlightBooking 9000 (some "BK1") (some "AI101")]).map Alert.type =
      ["departure_reminder", "gate_change"]
    ∧ (check_flight_alerts c3EnvRoll 0
        [mkFlightBooking 9000 (some "BK1") (some "AI101")]).length = 2
    ∧ check_flight_alerts c3EnvRoll 0
        [mkAwareFlightBooking 82800 (some "BK2") (some "AI202")] = [] := by
  refine ⟨by decide, by decide, by decide⟩

/-- Claim C3, amended.  For a confirmed flight booking whose departure
parses to a timezone-naive datetime: at exactly 23 h out the evaluator
emits exactly one `flight_checkin_reminder` of priority 3 (the gate window
does not apply); at exactly 2.5 h out it emits one `departure_reminder` of
priority 4 whose message shows `2.5` hours remaining, followed by one
`gate_change` alert exactly when the probabilistic draw fires, and nothing
else; at 10 h out it emits nothing.  A confirmed flight booking whose
departure parses timezone-aware (`Z` / offset suffix) instead makes the
evaluator raise at the subtraction: it emits no alerts for that booking and
every later booking is dropped, while alerts accumulated from earlier
bookings survive. -/
theorem C3_flight_windows (env : FlightEnv) (now dep dep2 : Int)
    (bid fn : Option String) (bs : List Booking) :
    (dep - now = 23 * 3600 →
      check_flight_alerts env now [mkFlightBooking dep bid fn] =
        [{ type := "flight_checkin_reminder", priority := 3,
           title := "Flight Check-in Available",
           message := "Check-in is now available for your flight " ++ fn.getD "N/A",
           bookingId := bid, actionRequired := true, createdAt := now }])
    ∧ (dep - now = 9000 →
      check_flight_alerts env now [mkFlightBooking dep bid fn] =
        { type := "departure_reminder", priority := 4,
          title := "Upcoming Flight Departure",
          message := "Your flight " ++ fn.getD "N/A"
            ++ " departs in approximately " ++ "2.5" ++ " hours",
          bookingId := bid, actionRequired := false, createdAt := now } ::
          (if env.roll 0 then
            [{ type := "gate_change", priority := 5,
               title := "Gate Change Alert",
               message := "Gate change for flight " ++ fn.getD "N/A"
                 ++ ". New gate: " ++ gateNames (env.gate 0),
               bookingId := bid, actionRequired := true, createdAt := now }]
           else []))
    ∧ (dep - now = 10 * 3600 →
      check_flight_alerts env now [mkFlightBooking dep bid fn] = [])
    ∧ check_flight_alerts env now (mkAwareFlightBooking dep2 bid fn :: bs) = []
    ∧ (dep - now = 23 * 3600 →
      check_flight_alerts env now
          [mkFlightBooking dep bid fn, mkAwareFlightBooking dep2 bid fn] =
        [{ type := "flight_checkin_reminder", priority := 3,
           title := "Flight Check-in Available",
           message := "Check-in is now available for your flight " ++ fn.getD "N/A",
           bookingId := bid, actionRequired := true, createdAt := now }]) := by
  refine ⟨?_, ?_, ?_, ?_, ?_⟩
  · intro h
    rw [check_flight_single env now (mkFlightBooking dep bid fn) (by rfl)]
    unfold flight_alerts_for mkFlightBooking
    dsimp only
    rw [h]
    norm_num
  · intro h
    rw [check_flight_single env now (mkFlightBooking dep bid fn) (by rfl)]
    unfold flight_alerts_for mkFlightBooking
    dsimp only
    rw [h]
    norm_num
    rfl
  · intro h
    rw [check_flight_single env now (mkFlightBooking dep bid fn) (by rfl)]
    unfold flight_alerts_for mkFlightBooking
    dsimp only
    rw [h]
    norm_num
  · exact check_flight_aborts env now 0 (mkAwareFlightBooking dep2 bid fn) bs (by rfl)
  · intro h
    have e1 : check_flight_alerts env now
        [mkFlightBooking dep bid fn, mkAwareFlightBooking dep2 bid fn] =
        flight_alerts_for env now 0 (mkFlightBooking dep bid fn) ++ [] := by
      unfold check_flight_alerts
      rw [check_flight_cons env now 0 (mkFlightBooking dep bid fn) _ (by rfl),
          check_flight_aborts env now 1 (mkAwareFlightBooking dep2 bid fn) [] (by rfl)]
    rw [e1, List.append_nil]
    unfold flight_alerts_for mkFlightBooking
    dsimp only
    rw [h]
    norm_num

def c3WEnv : FlightEnv := { roll := fun _ => false, gate := fun _ => 0 }

/-- Witness instantiating `C3_flight_windows` at a departure 23 h out. -/
theorem C3_witness :
    check_flight_alerts c3WEnv 0 [mkFlightBooking 82800 none none] =
      [{ type := "flight_checkin_reminder", priority := 3,
         title := "Flight Check-in Available",
         message := "Check-in is now available for your flight N/A",
         bookingId := none, actionRequired := true, createdAt := 0 }] := by
  have h := (C3_flight_windows c3WEnv 0 82800 0 none none []).1 rfl
  exact h

/-! ## Claim C4: dismissing an unknown alert id -/

def c4User : UserData :=
  { currentAlerts := [{ type := "custom", priority := 1, title := "Packing",
                        message := "Pack chargers", actionRequired := false }] }

def c4Store : Store := fun v => if v = "traveler-1" then some c4User else none

def c4Req : DismissReq :=
  { userId := some "traveler-1", alertId := some "no-such-alert" }

/-- Claim C4, counterexample.  For an existing user (the store returns a
document whose current alerts do not contain — indeed alert records carry no
id at all — the dismissed id), `dismiss_alert` answers with the success
acknowledgement, not a not-found error, falsifying the claim. -/
theorem C4_counterexample :
    c4Store "traveler-1" = some c4User
    ∧ (dismiss_alert 0 true c4Store c4Req).1 = .dismissed
    ∧ (dismiss_alert 0 true c4Store c4Req).1 ≠ .userNotFound := by
  refine ⟨rfl, rfl, by decide⟩

/-- Claim C4, amended.  `dismiss_alert` returns a bad-request error for
falsy inputs and a not-found error only when the user document is absent;
for an existing user it appends `(alert_id, dismissed_at)` to the dismissed
list and acknowledges success regardless of whether the id occurs among the
current alerts. -/
theorem C4_dismiss_behavior (now : Int) (saveOk : Bool) (store : Store)
    (req : DismissReq) :
    (optFalsy req.userId = true ∨ optFalsy req.alertId = true →
        dismiss_alert now saveOk store req = (.badRequest, store))
    ∧ (optFalsy req.userId = false → optFalsy req.alertId = false →
        store (req.userId.getD "") = none →
        dismiss_alert now saveOk store req = (.userNotFound, store))
    ∧ (∀ d : UserData, optFalsy req.userId = false → optFalsy req.alertId = false →
        store (req.userId.getD "") = some d → saveOk = true →
        dismiss_alert now saveOk store req =
          (.dismissed, storePut store (req.userId.getD "")
            { d with dismissedAlerts :=
                d.dismissedAlerts ++ [(req.alertId.getD "", now)] })) := by
  refine ⟨?_, ?_, ?_⟩
  · intro h
    unfold dismiss_alert
    rcases h with h | h <;> simp [h]
  · intro h1 h2 h3
    unfold dismiss_alert
    simp [h1, h2, h3]
  · intro d h1 h2 h3 h4
    unfold dismiss_alert
    simp [h1, h2, h3, h4]

def c4WUser : UserData := {}

def c4WStore : Store := fun v => if v = "u9" then some c4WUser else none

def c4WReq : DismissReq := { userId := some "u9", alertId := some "a77" }

/-- Witness instantiating `C4_dismiss_behavior` on a concrete store. -/
theorem C4_witness :
    dismiss_alert 3 true c4WStore c4WReq =
      (.dismissed, storePut c4WStore "u9"
        { c4WUser with dismissedAlerts := [("a77", 3)] }) := by
  have h := (C4_dismiss_behavior 3 true c4WStore c4WReq).2.2 c4WUser rfl rfl rfl rfl
  exact h

/-! ## Claim C5: at most one weather alert per forecast day -/

def c5Day : WForecastDay :=
  { date := some "2026-03-01", description := some "Severe Thunderstorm expected" }

def c5Env : String → Option WForecast :=
  fun loc => if loc = "Paris" then some { forecast := [c5Day] } else none

def c5Trip : TripItinerary :=
  { destinations := [{ location := some "Paris", country := some "France",
                       arrivalDate := some "2026-03-01" }] }

/-- Claim C5.  Each forecast day contributes at most one weather alert
(severe and moderate checks are an if/elif pair, severe first, matching
case-insensitively by substring): a day described as
`Severe Thunderstorm expected` yields exactly one `severe_weather` alert
(priority 4, action required) and no `weather_advisory`, through the per-day
rule and through `check_weather_alerts` end to end; a description holding
both a severe and a moderate keyword still yields only the severe alert. -/
theorem C5_weather_first_match :
    (∀ (now : Int) (loc : String) (d : WForecastDay),
        (day_weather_alerts now loc d).length ≤ 1)
    ∧ (day_weather_alerts 0 "Paris" c5Day).map
        (fun a => (a.type, a.priority, a.actionRequired)) =
        [("severe_weather", 4, true)]
    ∧ (day_weather_alerts 0 "Paris"
          { date := some "2026-03-02",
            description := some "Storm with Heavy Rain and Fog" }).map
        Alert.type = ["severe_weather"]
    ∧ (check_weather_alerts c5Env 0 (some c5Trip)).map Alert.type =
        ["severe_weather"] := by
  refine ⟨?_, by decide, by decide, by decide⟩
  intro now loc d
  unfold day_weather_alerts
  dsimp only
  split_ifs <;> simp

/-! ## Claim C6: relevance scores stay in the unit interval -/

/-- Claim C6.  For every article, clock and location string the relevance
score computed by the News adapter lies in `[0, 1]`, and an absent or
unparseable publish timestamp contributes a recency bonus of exactly 0
(the embedded function is total, so no error is possible). -/
theorem C6_relevance_bounds :
    (∀ (now : Int) (a : RawArticle) (loc : String),
        0 ≤ calculate_relevance now a loc ∧ calculate_relevance now a loc ≤ 1)
    ∧ (∀ now : Int, recency_bonus now .missing = 0)
    ∧ (∀ now : Int, recency_bonus now .unparseable = 0) := by
  refine ⟨?_, fun _ => rfl, fun _ => rfl⟩
  intro now a loc
  unfold calculate_relevance
  refine ⟨le_min ?_ (by norm_num), min_le_right _ _⟩
  have h5 : 0 ≤ recency_bonus now a.publishedAt := by
    rcases a.publishedAt with _ | _ | t
    · norm_num [recency_bonus]
    · norm_num [recency_bonus]
    · unfold recency_bonus
      dsimp only
      split_ifs <;> norm_num
  refine add_nonneg (add_nonneg (add_nonneg (add_nonneg ?_ ?_) ?_) ?_) h5 <;>
    split_ifs <;> norm_num

/-! ## Claim C7: the duration invariant -/

/-- Frame lemma for the update loop: `duration_days` is never among the
overwritten fields, and a date field is untouched when the request does not
carry it. -/
theorem applyItinUpdates_frame (ex : StoredItin) (d : ItinData) :
    (applyItinUpdates ex d).durationDays = ex.durationDays
    ∧ (d.startDate = none → (applyItinUpdates ex d).startDate = ex.startDate)
    ∧ (d.endDate = none → (applyItinUpdates ex d).endDate = ex.endDate) := by
  rcases d with ⟨dst, sd, ed, tt, dsc, dys, tv⟩
  unfold applyItinUpdates
  dsimp only
  cases dst <;> cases sd <;> cases ed <;> cases tt <;> cases dsc <;>
    cases dys <;> cases tv <;> simp

/-- Claim C7.  Every itinerary record that `create_itinerary` passes to the
store satisfies `duration_days = (end - start).days + 1`, and every record
`update_itinerary` passes to the store satisfies it as well — recomputed
from the final dates whenever the request carries a new `start_date` or
`end_date`, and inherited otherwise provided the existing record already
satisfied it. -/
theorem C7_duration_invariant :
    (∀ (now : Int) (saveOk : Bool) (uid : String) (d : ItinData)
        (r : StoredItin),
        (create_itinerary now saveOk uid d).2 = some r → ItinInv r)
    ∧ (∀ (now : Int) (saveOk : Bool) (ex : StoredItin) (d : ItinData)
        (r : StoredItin),
        (update_itinerary now saveOk (some ex) d).2 = some r →
        (d.startDate.isSome ∨ d.endDate.isSome ∨ ItinInv ex) → ItinInv r) := by
  constructor
  · intro now saveOk uid d r h
    unfold create_itinerary at h
    rcases hdst : d.destination with _ | dest <;> rw [hdst] at h
    · cases h
    rcases hsd : d.startDate with _ | sd <;> rw [hsd] at h
    · cases h
    rcases hed : d.endDate with _ | ed <;> rw [hed] at h
    · cases h
    cases sd with
    | missing => cases ed <;> cases h
    | unparseable => cases ed <;> cases h
    | parsed s =>
      cases ed with
      | missing => cases h
      | unparseable => cases h
      | parsed e =>
        dsimp only at h
        injection h with h2
        subst h2
        exact ⟨s, e, rfl, rfl, rfl⟩
  · intro now saveOk ex d r h hcond
    unfold update_itinerary at h
    dsimp only at h
    by_cases hdates : d.startDate.isSome = true ∨ d.endDate.isSome = true
    · rw [if_pos hdates] at h
      rcases hsu : (applyItinUpdates ex d).startDate with _ | _ | s <;>
        rw [hsu] at h <;>
        rcases heu : (applyItinUpdates ex d).endDate with _ | _ | e <;>
          rw [heu] at h
      case pos.parsed.parsed =>
        try dsimp only at h
        injection h with h2
        subst h2
        exact ⟨s, e, rfl, rfl, rfl⟩
      all_goals cases h
    · rw [if_neg hdates] at h
      try dsimp only at h
      injection h with h2
      subst h2
      have hsdn : d.startDate = none := by
        cases hx : d.startDate with
        | none => rfl
        | some v => exact absurd (Or.inl (by simp [hx])) hdates
      have hedn : d.endDate = none := by
        cases hx : d.endDate with
        | none => rfl
        | some v => exact absurd (Or.inr (by simp [hx])) hdates
      rcases hcond with hc | hc | hc
      · exact absurd (Or.inl hc) hdates
      · exact absurd (Or.inr hc) hdates
      · obtain ⟨s, e, h1, h2', h3⟩ := hc
        obtain ⟨hdur, hst, hen⟩ := applyItinUpdates_frame ex d
        refine ⟨s, e, ?_, ?_, ?_⟩
        · show (applyItinUpdates ex d).startDate = DateField.parsed s
          rw [hst hsdn, h1]
        · show (applyItinUpdates ex d).endDate = DateField.parsed e
          rw [hen hedn, h2']
        · show (applyItinUpdates ex d).durationDays = Int.fdiv (e - s) 86400 + 1
          rw [hdur, h3]

def c7Data : ItinData :=
  { destination := some "Paris", startDate := some (.parsed 0),
    endDate := some (.parsed 86400) }

def c7Sample : StoredItin :=
  { userId := "u1", destination := "Paris", startDate := .parsed 0,
    endDate := .parsed 86400, title := "Trip to Paris", description := "",
    days := [1, 2], travelers := 1, durationDays := 2, status := "draft",
    createdAt := 0, updatedAt := 0 }

/-- Witness instantiating `C7_duration_invariant` on a two-day trip. -/
theorem C7_witness :
    (create_itinerary 0 true "u1" c7Data).2 = some c7Sample
    ∧ ItinInv c7Sample :=
  ⟨by decide, C7_duration_invariant.1 0 true "u1" c7Data c7Sample (by decide)⟩

/-! ## Claim C8: custom-alert validation and defaults -/

def c8Store : Store := fun _ => none

def c8Req : CustomReq :=
  { userId := some "u1", alert := some { title := some "Call embassy" } }

/-- Claim C8, counterexample.  A request whose alert spec is non-empty but
carries no message is accepted, not rejected: the handler creates the alert
with the message defaulted to the empty string. -/
theorem C8_counterexample :
    (c8Req.alert.getD {}).message = none
    ∧ (create_custom_alert 0 true c8Store c8Req).1 =
        .created { priority := 1, title := "Call embassy", message := "",
                   triggerDate := none, actionRequired := false,
                   createdAt := 0 } := by
  refine ⟨by decide, by decide⟩

/-- Claim C8, amended.  `create_custom_alert` rejects a request whose
`user_id` is falsy or whose alert dict is missing or entirely empty; every
other request is accepted and the created alert defaults `priority` to 1,
`title` to `Custom Alert`, `message` to the empty string (a missing message
does not cause rejection) and `action_required` to false. -/
theorem C8_custom_alert_validation (now : Int) (saveOk : Bool) (store : Store)
    (req : CustomReq) :
    (optFalsy req.userId = true ∨ (req.alert.getD {}).isEmptyDict = true →
        create_custom_alert now saveOk store req = (.badRequest, store))
    ∧ (optFalsy req.userId = false → (req.alert.getD {}).isEmptyDict = false →
        saveOk = true →
        (create_custom_alert now saveOk store req).1 =
          .created { priority := (req.alert.getD {}).priority.getD 1,
                     title := (req.alert.getD {}).title.getD "Custom Alert",
                     message := (req.alert.getD {}).message.getD "",
                     triggerDate := (req.alert.getD {}).triggerDate,
                     actionRequired := (req.alert.getD {}).actionRequired.getD false,
                     createdAt := now }) := by
  constructor
  · intro h
    unfold create_custom_alert
    rcases h with h | h <;> simp [h]
  · intro h1 h2 h3
    unfold create_custom_alert
    simp [h1, h2, h3]

def c8WReq : CustomReq :=
  { userId := some "u9", alert := some { message := some "hi" } }

/-- Witness instantiating `C8_custom_alert_validation` on a concrete
request. -/
theorem C8_witness :
    (create_custom_alert 5 true c8Store c8WReq).1 =
      .created { priority := 1, title := "Custom Alert", message := "hi",
                 triggerDate := none, actionRequired := false,
                 createdAt := 5 } := by
  have h := (C8_custom_alert_validation 5 true c8Store c8WReq).2 rfl rfl rfl
  exact h

/-! ## Claim C9: the filename classifier -/

/-- Claim C9.  The document classifier tests the keyword sets in the fixed
order identification, flight_document, accommodation, insurance, itinerary,
first match wins, defaulting to `other`; in particular the three examples of
the claim classify as stated, matching is case-insensitive, and a filename
hitting several sets gets the earliest category. -/
theorem C9_classifier :
    classify_document_type "my_passport_scan.pdf" = "identification"
    ∧ classify_document_type "hotel_reservation_confirm.pdf" = "accommodation"
    ∧ classify_document_type "randomfile.pdf" = "other"
    ∧ classify_document_type "My_Passport_Scan.PDF" = "identification"
    ∧ classify_document_type "passport_hotel_insurance_plan.pdf" = "identification"
    ∧ classify_document_type "ticket_hotel.pdf" = "flight_document"
    ∧ classify_document_type "hotel_policy.pdf" = "accommodation"
    ∧ classify_document_type "insurance_itinerary.pdf" = "insurance"
    ∧ classify_document_type "plan_train.pdf" = "itinerary"
    ∧ (∀ f : String, classify_document_type f ∈
        ["identification", "flight_document", "accommodation", "insurance",
         "itinerary", "other"]) := by
  refine ⟨by decide, by decide, by decide, by decide, by decide, by decide,
          by decide, by decide, by decide, ?_⟩
  intro f
  unfold classify_document_type
  dsimp only
  split_ifs <;> simp

/-! ## Claim C10: the no-data path writes nothing -/

/-- Claim C10.  When the store has no document for the user, `handle_alerts`
answers with the `No user data found` body carrying an empty alert list and
returns the store unchanged — no write for this or any other user. -/
theorem C10_no_user_data_frame (env : AlertsEnv) (store : Store) (uid : String)
    (hu : uid.isEmpty = false) (hs : store uid = none) :
    handle_alerts env store uid = (.noUserData [], store) := by
  unfold handle_alerts
  rw [hu, hs]
  rfl

def c10Env : AlertsEnv :=
  { now := 0, flight := { roll := fun _ => false, gate := fun _ => 0 },
    weather := fun _ => none, news := fun _ => none,
    documents := [], docRoll := fun _ => false, saveOk := true }

def c10Store : Store := fun _ => none

/-- Witness instantiating `C10_no_user_data_frame` on an empty store. -/
theorem C10_witness :
    ("ghost".isEmpty = false) ∧ (c10Store "ghost" = none)
    ∧ handle_alerts c10Env c10Store "ghost" = (.noUserData [], c10Store) :=
  ⟨rfl, rfl, C10_no_user_data_frame c10Env c10Store "ghost" rfl rfl⟩
